import Mathlib

/-!
Shallow embedding of `fastai/vision/models/xresnet.py`.

Layers are modelled as a syntax tree mirroring the `torch.nn` modules the file
instantiates.  Learnable parameters (a convolution's `weight`/`bias`, a batch
norm's `weight`/`bias`, a linear layer's `weight`) are modelled symbolically by
`WInit`: a parameter is either still at its framework default (`uninit`), set
to a constant, or drawn from a distribution.  Random draws take their value
from an explicit stream `ρ : Nat → ℚ` of external randomness, consumed left to
right by a counter, so that two constructions may differ exactly in the drawn
values.
-/

/-- Symbolic state of one parameter tensor.  `kaiming v` means the tensor was
filled by `nn.init.kaiming_normal_` and the draw came out as `v`; `normal m s v`
means it was filled from a normal distribution with mean `m` and standard
deviation `s`, the draw coming out as `v`. -/
inductive WInit where
  | uninit : WInit
  | const (v : ℚ) : WInit
  | kaiming (v : ℚ) : WInit
  | normal (mean std v : ℚ) : WInit
deriving DecidableEq

/-- The `torch.nn` modules built by `xresnet.py`, as a syntax tree.
`Conv2d ni nf ks stride padding hasBias w b` mirrors
`nn.Conv2d(ni, nf, kernel_size=ks, stride=stride, padding=padding, bias=hasBias)`
with parameter states `w`, `b`; `basicBlock`/`bottleneckBlock` mirror the
`BasicBlock`/`Bottleneck` module classes with their registered submodules. -/
inductive Layer where
  | Conv2d (ni nf ks stride padding : Nat) (hasBias : Bool) (w b : WInit) : Layer
  | BatchNorm2d (c : Nat) (w b : WInit) : Layer
  | BatchNorm1d (c : Nat) (w b : WInit) : Layer
  | ReLU : Layer
  | MaxPool2d (ks stride padding : Nat) : Layer
  | AvgPool2d (ks stride : Nat) : Layer
  | AdaptiveAvgPool2d (outSize : Nat) : Layer
  | Linear (inF outF : Nat) (w b : WInit) : Layer
  | Sequential (ls : List Layer) : Layer
  | basicBlock (conv1 conv2 : Layer) (downsample : Option Layer) (stride : Nat) : Layer
  | bottleneckBlock (conv1 conv2 conv3 : Layer) (downsample : Option Layer) (stride : Nat) : Layer

/-- Python `conv(ni, nf, ks, stride, bias)`:
`nn.Conv2d(ni, nf, kernel_size=ks, stride=stride, padding=ks//2, bias=bias)`. -/
def conv (ni nf ks stride : Nat) (bias : Bool) : Layer :=
  Layer.Conv2d ni nf ks stride (ks / 2) bias WInit.uninit WInit.uninit

/-- Python `conv_relu_bn_(ni, nf, ks, stride, rev)`: the list
`[conv(ni, nf, ks, stride), ReLU, BatchNorm2d(ni if rev else nf)]`, reversed
when `rev`. -/
def conv_relu_bn_ (ni nf ks stride : Nat) (rev : Bool) : List Layer :=
  let layers := [conv ni nf ks stride false, Layer.ReLU,
    Layer.BatchNorm2d (if rev then ni else nf) WInit.uninit WInit.uninit]
  if rev then layers.reverse else layers

/-- Python `conv_bn_relu(ni, nf, ks, stride)`. -/
def conv_bn_relu (ni nf ks stride : Nat) : Layer :=
  Layer.Sequential (conv_relu_bn_ ni nf ks stride false)

/-- Python `bn_relu_conv(ni, nf, ks, stride)`. -/
def bn_relu_conv (ni nf ks stride : Nat) : Layer :=
  Layer.Sequential (conv_relu_bn_ ni nf ks stride true)

/-- Python `BasicBlock.__init__(ni, nf, stride, downsample)`: registers
`conv1 = bn_relu_conv(ni, nf, stride=stride)`, `conv2 = bn_relu_conv(nf, nf)`. -/
def BasicBlock.make (ni nf stride : Nat) (downsample : Option Layer) : Layer :=
  Layer.basicBlock (bn_relu_conv ni nf 3 stride) (bn_relu_conv nf nf 3 1) downsample stride

/-- Python `Bottleneck.__init__(ni, nf, stride, downsample)`: registers
`conv1 = bn_relu_conv(ni, nf, 1)`, `conv2 = bn_relu_conv(nf, nf, stride=stride)`,
`conv3 = bn_relu_conv(nf, nf * 4, 1)`. -/
def Bottleneck.make (ni nf stride : Nat) (downsample : Option Layer) : Layer :=
  Layer.bottleneckBlock (bn_relu_conv ni nf 1 1) (bn_relu_conv nf nf 3 stride)
    (bn_relu_conv nf (nf * 4) 1 1) downsample stride

/-- The two block classes passed to `XResNet`. -/
inductive BlockType where
  | basic : BlockType
  | bottleneck : BlockType
deriving DecidableEq

/-- The class attribute `expansion` (`1` for `BasicBlock`, `4` for `Bottleneck`). -/
def BlockType.expansion : BlockType → Nat
  | BlockType.basic => 1
  | BlockType.bottleneck => 4

/-- Calling the block class: `block(ni, nf, stride, downsample)`. -/
def BlockType.make (b : BlockType) (ni nf stride : Nat) (downsample : Option Layer) : Layer :=
  match b with
  | BlockType.basic => BasicBlock.make ni nf stride downsample
  | BlockType.bottleneck => Bottleneck.make ni nf stride downsample

/-- The downsample branch computed at the top of `XResNet._make_layer`:
`None` unless `stride != 1 or self.ni != nf*block.expansion`, else a
`Sequential` of an optional `AvgPool2d(2, 2)` (present exactly when
`stride == 2`), a 1x1 `conv`, and a `BatchNorm2d`. -/
def XResNet.downsample_for (block : BlockType) (ni nf stride : Nat) : Option Layer :=
  if stride ≠ 1 ∨ ni ≠ nf * block.expansion then
    some (Layer.Sequential
      ((if stride = 2 then [Layer.AvgPool2d 2 2] else []) ++
        [conv ni (nf * block.expansion) 1 1 false,
         Layer.BatchNorm2d (nf * block.expansion) WInit.uninit WInit.uninit]))
  else none

/-- Python `XResNet._make_layer(block, nf, blocks, stride)` with the mutable field
`self.ni` made an explicit argument; returns the built `Sequential` together
with the updated `self.ni`.  The first block gets `(self.ni, nf, stride,
downsample)`; the loop `for i in range(1, blocks)` appends `blocks - 1`
further blocks, each `block(self.ni, nf)` with the updated `self.ni`. -/
def XResNet.make_layer (block : BlockType) (ni nf blocks stride : Nat) : Layer × Nat :=
  let downsample := XResNet.downsample_for block ni nf stride
  let first := block.make ni nf stride downsample
  let ni2 := nf * block.expansion
  (Layer.Sequential (first :: List.replicate (blocks - 1) (block.make ni2 nf 1 none)), ni2)

/-- The registered submodules of an `XResNet` instance, in registration order,
plus the final value of the mutable field `self.ni`. -/
structure XResNet where
  ni : Nat
  conv1 : Layer
  conv2 : Layer
  conv3 : Layer
  maxpool : Layer
  layer1 : Layer
  layer2 : Layer
  layer3 : Layer
  layer4 : Layer
  avgpool : Layer
  fc : Layer

/-- The pure structural part of `XResNet.__init__(block, layers, num_classes)`
(everything before `init_cnn(self)`): `none` when `layers` has fewer than four
entries (Python would raise `IndexError` on `layers[3]`). -/
def XResNet.construct (block : BlockType) (layers : List Nat) (num_classes : Nat) :
    Option XResNet :=
  match layers with
  | l0 :: l1 :: l2 :: l3 :: _ =>
    let r1 := XResNet.make_layer block 64 64 l0 1
    let r2 := XResNet.make_layer block r1.2 128 l1 2
    let r3 := XResNet.make_layer block r2.2 256 l2 2
    let r4 := XResNet.make_layer block r3.2 512 l3 2
    let nif := 512 * block.expansion
    some {
      ni := r4.2
      conv1 := conv_bn_relu 3 32 3 2
      conv2 := conv_bn_relu 32 32 3 1
      conv3 := conv 32 64 3 1 false
      maxpool := Layer.MaxPool2d 3 2 1
      layer1 := r1.1
      layer2 := r2.1
      layer3 := r3.1
      layer4 := r4.1
      avgpool := Layer.AdaptiveAvgPool2d 1
      fc := Layer.Sequential [Layer.ReLU, Layer.BatchNorm1d nif WInit.uninit WInit.uninit,
        Layer.Linear nif num_classes WInit.uninit WInit.uninit]
    }
  | _ => none

mutual
/-- Python `init_cnn(m)`: Kaiming-normal convolution weights (bias, when present, to
`0`), batch-norm 2d weight `1` and bias `0`, then recurse into children.
`ρ` is the stream of random draws, `n` the index of the next draw. -/
def init_cnn (ρ : Nat → ℚ) : Layer → Nat → Layer × Nat
  | Layer.Conv2d ni nf ks st pd hb _ b, n =>
    (Layer.Conv2d ni nf ks st pd hb (WInit.kaiming (ρ n))
      (if hb then WInit.const 0 else b), n + 1)
  | Layer.BatchNorm2d c _ _, n => (Layer.BatchNorm2d c (WInit.const 1) (WInit.const 0), n)
  | Layer.Sequential ls, n =>
    let r := init_cnn_list ρ ls n
    (Layer.Sequential r.1, r.2)
  | Layer.basicBlock c1 c2 ds s, n =>
    let r1 := init_cnn ρ c1 n
    let r2 := init_cnn ρ c2 r1.2
    let rd := init_cnn_opt ρ ds r2.2
    (Layer.basicBlock r1.1 r2.1 rd.1 s, rd.2)
  | Layer.bottleneckBlock c1 c2 c3 ds s, n =>
    let r1 := init_cnn ρ c1 n
    let r2 := init_cnn ρ c2 r1.2
    let r3 := init_cnn ρ c3 r2.2
    let rd := init_cnn_opt ρ ds r3.2
    (Layer.bottleneckBlock r1.1 r2.1 r3.1 rd.1 s, rd.2)
  | l, n => (l, n)

/-- Running `init_cnn` over the children of a `Sequential`, left to right. -/
def init_cnn_list (ρ : Nat → ℚ) : List Layer → Nat → List Layer × Nat
  | [], n => ([], n)
  | l :: ls, n =>
    let r := init_cnn ρ l n
    let rs := init_cnn_list ρ ls r.2
    (r.1 :: rs.1, rs.2)

/-- Running `init_cnn` over an optional child (`downsample` is not a child when `None`). -/
def init_cnn_opt (ρ : Nat → ℚ) : Option Layer → Nat → Option Layer × Nat
  | none, n => (none, n)
  | some l, n =>
    let r := init_cnn ρ l n
    (some r.1, r.2)
end

/-- The rational `0.01`, the standard deviation passed to
`m.weight.data.normal_(0, 0.01)`, given as a normal-form literal. -/
def hundredth : ℚ := ⟨1, 100, by decide, Nat.coprime_one_left 100⟩

/-- Set the `weight` parameter of a module to a constant
(`nn.init.constant_(m.weight, v)`). -/
def Layer.set_weight (v : ℚ) : Layer → Layer
  | Layer.Conv2d ni nf ks st pd hb _ b => Layer.Conv2d ni nf ks st pd hb (WInit.const v) b
  | Layer.BatchNorm2d c _ b => Layer.BatchNorm2d c (WInit.const v) b
  | Layer.BatchNorm1d c _ b => Layer.BatchNorm1d c (WInit.const v) b
  | Layer.Linear i o _ b => Layer.Linear i o (WInit.const v) b
  | l => l

/-- Python `nn.init.constant_(m.conv2[0].weight, 0.)`: zero the `weight` of the module
at index `0` of a `Sequential`. -/
def Layer.zero_head_weight : Layer → Layer
  | Layer.Sequential (h :: rest) => Layer.Sequential (Layer.set_weight 0 h :: rest)
  | l => l

mutual
/-- The loop `for m in self.modules()` after `init_cnn(self)`: for every
`BasicBlock` set `m.conv2[0].weight` to `0`, for every `Bottleneck` set
`m.conv3[0].weight` to `0`, for every `nn.Linear` redraw `m.weight` from a
normal distribution with mean `0` and standard deviation `0.01`. -/
def post_init (ρ : Nat → ℚ) : Layer → Nat → Layer × Nat
  | Layer.Linear i o _ b, n => (Layer.Linear i o (WInit.normal 0 hundredth (ρ n)) b, n + 1)
  | Layer.Sequential ls, n =>
    let r := post_init_list ρ ls n
    (Layer.Sequential r.1, r.2)
  | Layer.basicBlock c1 c2 ds s, n =>
    let r1 := post_init ρ c1 n
    let r2 := post_init ρ c2 r1.2
    let rd := post_init_opt ρ ds r2.2
    (Layer.basicBlock r1.1 (Layer.zero_head_weight r2.1) rd.1 s, rd.2)
  | Layer.bottleneckBlock c1 c2 c3 ds s, n =>
    let r1 := post_init ρ c1 n
    let r2 := post_init ρ c2 r1.2
    let r3 := post_init ρ c3 r2.2
    let rd := post_init_opt ρ ds r3.2
    (Layer.bottleneckBlock r1.1 r2.1 (Layer.zero_head_weight r3.1) rd.1 s, rd.2)
  | l, n => (l, n)

/-- Running `post_init` over the children of a `Sequential`. -/
def post_init_list (ρ : Nat → ℚ) : List Layer → Nat → List Layer × Nat
  | [], n => ([], n)
  | l :: ls, n =>
    let r := post_init ρ l n
    let rs := post_init_list ρ ls r.2
    (r.1 :: rs.1, rs.2)

/-- Running `post_init` over an optional child. -/
def post_init_opt (ρ : Nat → ℚ) : Option Layer → Nat → Option Layer × Nat
  | none, n => (none, n)
  | some l, n =>
    let r := post_init ρ l n
    (some r.1, r.2)
end

/-- The initialization performed at the end of `XResNet.__init__`:
`init_cnn(self)` over all submodules in registration order, then the
`for m in self.modules()` loop. -/
def XResNet.init_weights (ρ : Nat → ℚ) (m : XResNet) : XResNet :=
  let p1 := init_cnn ρ m.conv1 0
  let p2 := init_cnn ρ m.conv2 p1.2
  let p3 := init_cnn ρ m.conv3 p2.2
  let p4 := init_cnn ρ m.maxpool p3.2
  let p5 := init_cnn ρ m.layer1 p4.2
  let p6 := init_cnn ρ m.layer2 p5.2
  let p7 := init_cnn ρ m.layer3 p6.2
  let p8 := init_cnn ρ m.layer4 p7.2
  let p9 := init_cnn ρ m.avgpool p8.2
  let p10 := init_cnn ρ m.fc p9.2
  let q1 := post_init ρ p1.1 p10.2
  let q2 := post_init ρ p2.1 q1.2
  let q3 := post_init ρ p3.1 q2.2
  let q4 := post_init ρ p4.1 q3.2
  let q5 := post_init ρ p5.1 q4.2
  let q6 := post_init ρ p6.1 q5.2
  let q7 := post_init ρ p7.1 q6.2
  let q8 := post_init ρ p8.1 q7.2
  let q9 := post_init ρ p9.1 q8.2
  let q10 := post_init ρ p10.1 q9.2
  { ni := m.ni, conv1 := q1.1, conv2 := q2.1, conv3 := q3.1, maxpool := q4.1,
    layer1 := q5.1, layer2 := q6.1, layer3 := q7.1, layer4 := q8.1,
    avgpool := q9.1, fc := q10.1 }

/-- The whole of `XResNet.__init__(block, layers, num_classes)`. -/
def XResNet.init (ρ : Nat → ℚ) (block : BlockType) (layers : List Nat)
    (num_classes : Nat) : Option XResNet :=
  (XResNet.construct block layers num_classes).map (XResNet.init_weights ρ)

/-- Free tensor terms: applying a layer is an uninterpreted operation, so a
term records exactly which layers were applied to the input in which order.
`add` is the in-place `x += identity`; `flatten` is `x.view(x.size(0), -1)`. -/
inductive Tensor where
  | input : Tensor
  | app (l : Layer) (t : Tensor) : Tensor
  | add (t identity : Tensor) : Tensor
  | flatten (t : Tensor) : Tensor

mutual
/-- Running a module on a tensor.  A `Sequential` runs its children in order;
`BasicBlock.forward` and `Bottleneck.forward` run the conv path and add the
identity (`x` itself when `downsample` is `None`, else `downsample(x)`);
every other module is an uninterpreted application. -/
def Layer.forward : Layer → Tensor → Tensor
  | Layer.Sequential ls, x => Layer.forward_list ls x
  | Layer.basicBlock c1 c2 ds _, x =>
    Tensor.add (Layer.forward c2 (Layer.forward c1 x))
      (match ds with
       | none => x
       | some d => Layer.forward d x)
  | Layer.bottleneckBlock c1 c2 c3 ds _, x =>
    Tensor.add (Layer.forward c3 (Layer.forward c2 (Layer.forward c1 x)))
      (match ds with
       | none => x
       | some d => Layer.forward d x)
  | l, x => Tensor.app l x

/-- Children of a `Sequential`, applied left to right. -/
def Layer.forward_list : List Layer → Tensor → Tensor
  | [], x => x
  | l :: ls, x => Layer.forward_list ls (Layer.forward l x)
end

/-- Python `XResNet.forward(x)`: the stem, the four stages, pooling, flattening, and
the classifier head, in source order. -/
def XResNet.forward (m : XResNet) (x : Tensor) : Tensor :=
  Layer.forward m.fc
    (Tensor.flatten
      (Layer.forward m.avgpool
        (Layer.forward m.layer4
          (Layer.forward m.layer3
            (Layer.forward m.layer2
              (Layer.forward m.layer1
                (Layer.forward m.maxpool
                  (Layer.forward m.conv3
                    (Layer.forward m.conv2
                      (Layer.forward m.conv1 x))))))))))

/-- Python `model_urls = dict(xresnet34='xresnet34', xresnet50='xresnet50')`. -/
def model_urls : List (String × String) :=
  [("xresnet34", "xresnet34"), ("xresnet50", "xresnet50")]

/-- Errors the module can raise: `KeyError` from `model_urls[name]`,
`IndexError` from `layers[i]` with a short list. -/
inductive PyErr where
  | keyError (k : String) : PyErr
  | indexError : PyErr
deriving DecidableEq

/-- The result of `xresnet(...)`: the model together with the url whose state
dict was loaded into it (`none` when no loading happened). -/
def xresnet (ρ : Nat → ℚ) (block : BlockType) (n_layers : List Nat) (name : String)
    (pre : Bool) (num_classes : Nat) : Except PyErr (XResNet × Option String) :=
  match XResNet.init ρ block n_layers num_classes with
  | none => Except.error PyErr.indexError
  | some model =>
    if pre then
      match model_urls.lookup name with
      | none => Except.error (PyErr.keyError name)
      | some url => Except.ok (model, some url)
    else Except.ok (model, none)

/-- Python `xresnet18(pretrained, **kwargs)`. -/
def xresnet18 (ρ : Nat → ℚ) (pretrained : Bool) (num_classes : Nat) :
    Except PyErr (XResNet × Option String) :=
  xresnet ρ BlockType.basic [2, 2, 2, 2] "xresnet18" pretrained num_classes

/-- Python `xresnet34(pretrained, **kwargs)`. -/
def xresnet34 (ρ : Nat → ℚ) (pretrained : Bool) (num_classes : Nat) :
    Except PyErr (XResNet × Option String) :=
  xresnet ρ BlockType.basic [3, 4, 6, 3] "xresnet34" pretrained num_classes

/-- Python `xresnet50(pretrained, **kwargs)`. -/
def xresnet50 (ρ : Nat → ℚ) (pretrained : Bool) (num_classes : Nat) :
    Except PyErr (XResNet × Option String) :=
  xresnet ρ BlockType.bottleneck [3, 4, 6, 3] "xresnet50" pretrained num_classes

/-- Python `xresnet101(pretrained, **kwargs)`. -/
def xresnet101 (ρ : Nat → ℚ) (pretrained : Bool) (num_classes : Nat) :
    Except PyErr (XResNet × Option String) :=
  xresnet ρ BlockType.bottleneck [3, 4, 23, 3] "xresnet101" pretrained num_classes

/-- Python `xresnet152(pretrained, **kwargs)`. -/
def xresnet152 (ρ : Nat → ℚ) (pretrained : Bool) (num_classes : Nat) :
    Except PyErr (XResNet × Option String) :=
  xresnet ρ BlockType.bottleneck [3, 8, 36, 3] "xresnet152" pretrained num_classes

mutual
/-- Architecture of a module: the same tree with every parameter state erased.
It keeps exactly the layer types, kernel sizes, strides, paddings and channel
dimensions. -/
def Layer.arch : Layer → Layer
  | Layer.Conv2d ni nf ks st pd hb _ _ =>
    Layer.Conv2d ni nf ks st pd hb WInit.uninit WInit.uninit
  | Layer.BatchNorm2d c _ _ => Layer.BatchNorm2d c WInit.uninit WInit.uninit
  | Layer.BatchNorm1d c _ _ => Layer.BatchNorm1d c WInit.uninit WInit.uninit
  | Layer.Linear i o _ _ => Layer.Linear i o WInit.uninit WInit.uninit
  | Layer.Sequential ls => Layer.Sequential (Layer.arch_list ls)
  | Layer.basicBlock c1 c2 ds s =>
    Layer.basicBlock (Layer.arch c1) (Layer.arch c2) (Layer.arch_opt ds) s
  | Layer.bottleneckBlock c1 c2 c3 ds s =>
    Layer.bottleneckBlock (Layer.arch c1) (Layer.arch c2) (Layer.arch c3) (Layer.arch_opt ds) s
  | l => l

/-- Mapping `Layer.arch` over the children of a `Sequential`. -/
def Layer.arch_list : List Layer → List Layer
  | [] => []
  | l :: ls => Layer.arch l :: Layer.arch_list ls

/-- Mapping `Layer.arch` over an optional child. -/
def Layer.arch_opt : Option Layer → Option Layer
  | none => none
  | some l => some (Layer.arch l)
end

/-- Architecture of a whole model. -/
def XResNet.arch (m : XResNet) : XResNet :=
  { ni := m.ni, conv1 := m.conv1.arch, conv2 := m.conv2.arch, conv3 := m.conv3.arch,
    maxpool := m.maxpool.arch, layer1 := m.layer1.arch, layer2 := m.layer2.arch,
    layer3 := m.layer3.arch, layer4 := m.layer4.arch, avgpool := m.avgpool.arch,
    fc := m.fc.arch }

/-- The children of a `Sequential` (and `[]` for any other module). -/
def Layer.seqList : Layer → List Layer
  | Layer.Sequential ls => ls
  | _ => []

/-- The `downsample` attribute of the first block of a stage `Sequential`. -/
def Layer.headDownsample : Layer → Option Layer
  | Layer.Sequential (Layer.basicBlock _ _ ds _ :: _) => ds
  | Layer.Sequential (Layer.bottleneckBlock _ _ _ ds _ :: _) => ds
  | _ => none

/-- Input channel count of the first `Conv2d` in a list of modules. -/
def firstConvIn : List Layer → Option Nat
  | [] => none
  | Layer.Conv2d ni _ _ _ _ _ _ _ :: _ => some ni
  | _ :: ls => firstConvIn ls

/-- Output channel count of the first `Conv2d` in a list of modules. -/
def firstConvOut : List Layer → Option Nat
  | [] => none
  | Layer.Conv2d _ nf _ _ _ _ _ _ :: _ => some nf
  | _ :: ls => firstConvOut ls

/-- Output channel count of the last `Conv2d` in a list of modules. -/
def lastConvOut (ls : List Layer) : Option Nat :=
  firstConvOut ls.reverse

/-- A residual block is shape-compatible when the output channel count of its
conv path equals the channel count of its identity path (the input channels
when `downsample` is `None`, the downsample convolution's output channels
otherwise). -/
def residual_ok : Layer → Bool
  | Layer.basicBlock c1 c2 ds _ =>
    (match lastConvOut c2.seqList,
        (match ds with
         | none => firstConvIn c1.seqList
         | some d => firstConvOut d.seqList) with
     | some a, some b => a == b
     | _, _ => false)
  | Layer.bottleneckBlock c1 _ c3 ds _ =>
    (match lastConvOut c3.seqList,
        (match ds with
         | none => firstConvIn c1.seqList
         | some d => firstConvOut d.seqList) with
     | some a, some b => a == b
     | _, _ => false)
  | _ => false

/-- Does a parameter state record a Kaiming-normal draw? -/
def WInit.isKaiming : WInit → Bool
  | WInit.kaiming _ => true
  | _ => false

/-- Does a parameter state record a draw from a normal distribution with mean
`0` and standard deviation `0.01`? -/
def WInit.isNormal001 : WInit → Bool
  | WInit.normal mean std _ => decide (mean = 0) && decide (std = hundredth)
  | _ => false

mutual
/-- The property claimed of the fully initialized model, checked recursively:
every `Conv2d` weight is a Kaiming-normal draw (and its bias, when present,
the constant `0`); every `BatchNorm2d` has weight `1` and bias `0`, except the
module at index `0` of each residual block's final conv path, whose weight is
`0`; every `Linear` weight is a draw from a normal distribution with mean `0`
and standard deviation `0.01`. -/
def goodInit : Layer → Bool
  | Layer.Conv2d _ _ _ _ _ hb w b =>
    w.isKaiming && (!hb || decide (b = WInit.const 0))
  | Layer.BatchNorm2d _ w b => decide (w = WInit.const 1) && decide (b = WInit.const 0)
  | Layer.Linear _ _ w _ => w.isNormal001
  | Layer.Sequential ls => goodInit_list ls
  | Layer.basicBlock c1 c2 ds _ => goodInit c1 && goodZeroedHead c2 && goodInit_opt ds
  | Layer.bottleneckBlock c1 c2 c3 ds _ =>
    goodInit c1 && goodInit c2 && goodZeroedHead c3 && goodInit_opt ds
  | _ => true

/-- Checking `goodInit` over the children of a `Sequential`. -/
def goodInit_list : List Layer → Bool
  | [] => true
  | l :: ls => goodInit l && goodInit_list ls

/-- Checking `goodInit` over an optional child. -/
def goodInit_opt : Option Layer → Bool
  | none => true
  | some l => goodInit l

/-- The final conv path of a residual block: a `Sequential` whose module at
index `0` is a `BatchNorm2d` with weight `0` and bias `0`, the remaining
modules satisfying `goodInit`. -/
def goodZeroedHead : Layer → Bool
  | Layer.Sequential (Layer.BatchNorm2d _ w b :: rest) =>
    decide (w = WInit.const 0) && decide (b = WInit.const 0) && goodInit_list rest
  | _ => false
end

/-- Checking `goodInit` over every submodule of a model. -/
def XResNet.goodInitAll (m : XResNet) : Bool :=
  goodInit m.conv1 && goodInit m.conv2 && goodInit m.conv3 && goodInit m.maxpool &&
  goodInit m.layer1 && goodInit m.layer2 && goodInit m.layer3 && goodInit m.layer4 &&
  goodInit m.avgpool && goodInit m.fc

/-- Replace the channel count of a `BatchNorm2d` (identity on other modules):
the relabelling under which `bn_relu_conv` is the reversal of `conv_bn_relu`. -/
def relabelBN (c : Nat) : Layer → Layer
  | Layer.BatchNorm2d _ w b => Layer.BatchNorm2d c w b
  | l => l

/-- Input channel count of a residual block: the input channels of the first
convolution of its first conv path. -/
def Layer.blockConvIn : Layer → Option Nat
  | Layer.basicBlock c1 _ _ _ => firstConvIn c1.seqList
  | Layer.bottleneckBlock c1 _ _ _ _ => firstConvIn c1.seqList
  | _ => none

/-- Input channel count of a stage: the input channel count of its first block. -/
def Layer.stageIn (st : Layer) : Option Nat :=
  match st.seqList with
  | b :: _ => b.blockConvIn
  | [] => none

/-- The model `XResNet.construct` builds for `BasicBlock, [2, 2, 2, 2], 1000`
(the architecture of `xresnet18`), used to instantiate concrete witnesses. -/
def model18 : XResNet :=
  (XResNet.construct BlockType.basic [2, 2, 2, 2] 1000).getD
    { ni := 0, conv1 := Layer.ReLU, conv2 := Layer.ReLU, conv3 := Layer.ReLU,
      maxpool := Layer.ReLU, layer1 := Layer.ReLU, layer2 := Layer.ReLU,
      layer3 := Layer.ReLU, layer4 := Layer.ReLU, avgpool := Layer.ReLU, fc := Layer.ReLU }

/-- The literal `hundredth` is the rational `0.01` of
`m.weight.data.normal_(0, 0.01)`. -/
theorem hundredth_eq : hundredth = 1 / 100 := by
  rw [hundredth, Rat.mk'_eq_divInt, Rat.divInt_eq_div]
  norm_num

/-- C9: for all `ni, nf, ks, stride`, the layer list of
`bn_relu_conv(ni, nf, ks, stride)` is the reversal of the layer list of
`conv_bn_relu(ni, nf, ks, stride)` with its `BatchNorm2d` relabelled to `ni`
channels instead of `nf`; concretely `bn_relu_conv` yields
`[BatchNorm2d(ni), ReLU, Conv2d(ni->nf)]` while `conv_bn_relu` yields
`[Conv2d(ni->nf), ReLU, BatchNorm2d(nf)]`. -/
theorem c9_bn_relu_conv_reverses (ni nf ks stride : Nat) :
    conv_relu_bn_ ni nf ks stride true =
      ((conv_relu_bn_ ni nf ks stride false).map (relabelBN ni)).reverse ∧
    bn_relu_conv ni nf ks stride =
      Layer.Sequential [Layer.BatchNorm2d ni WInit.uninit WInit.uninit, Layer.ReLU,
        conv ni nf ks stride false] ∧
    conv_bn_relu ni nf ks stride =
      Layer.Sequential [conv ni nf ks stride false, Layer.ReLU,
        Layer.BatchNorm2d nf WInit.uninit WInit.uninit] :=
  ⟨rfl, rfl, rfl⟩

/-- C5: `BasicBlock.forward` returns `conv2(conv1(x)) + identity` and
`Bottleneck.forward` returns `conv3(conv2(conv1(x))) + identity`, where
`identity` is `x` when the block's `downsample` is `None` and `downsample(x)`
otherwise; each conv path is the `bn_relu_conv` sequence registered by the
block's constructor. -/
theorem c5_residual_forward (ni nf stride : Nat) (ds : Option Layer) (x : Tensor) :
    Layer.forward (BasicBlock.make ni nf stride ds) x =
      Tensor.add
        (Layer.forward (bn_relu_conv nf nf 3 1)
          (Layer.forward (bn_relu_conv ni nf 3 stride) x))
        (ds.elim x (fun d => Layer.forward d x)) ∧
    Layer.forward (Bottleneck.make ni nf stride ds) x =
      Tensor.add
        (Layer.forward (bn_relu_conv nf (nf * 4) 1 1)
          (Layer.forward (bn_relu_conv nf nf 3 stride)
            (Layer.forward (bn_relu_conv ni nf 1 1) x)))
        (ds.elim x (fun d => Layer.forward d x)) := by
  cases ds <;> exact ⟨rfl, rfl⟩

/-- C3: in `XResNet._make_layer` a downsample branch is created iff
`stride != 1` or `self.ni != nf*block.expansion`; when created it is a
`Sequential` of an `AvgPool2d(2, 2)` exactly when `stride == 2`, followed by a
1x1 convolution from `self.ni` to `nf*block.expansion` channels, followed by a
`BatchNorm2d` over `nf*block.expansion` channels. -/
theorem c3_downsample_condition (block : BlockType) (ni nf blocks stride : Nat) :
    (XResNet.make_layer block ni nf blocks stride).1.headDownsample =
      (if stride ≠ 1 ∨ ni ≠ nf * block.expansion then
        some (Layer.Sequential
          ((if stride = 2 then [Layer.AvgPool2d 2 2] else []) ++
            [conv ni (nf * block.expansion) 1 1 false,
             Layer.BatchNorm2d (nf * block.expansion) WInit.uninit WInit.uninit]))
       else none) := by
  cases block <;> rfl

/-- C7: with `pretrained=True`, `xresnet18`, `xresnet101` and `xresnet152`
raise a `KeyError` (the `model_urls` dict has entries only for `'xresnet34'`
and `'xresnet50'`) and no weights are loaded; with `pretrained=False` all five
constructors succeed. -/
theorem c7_pretrained_key_errors (ρ : Nat → ℚ) (num_classes : Nat) :
    xresnet18 ρ true num_classes = Except.error (PyErr.keyError "xresnet18") ∧
    xresnet101 ρ true num_classes = Except.error (PyErr.keyError "xresnet101") ∧
    xresnet152 ρ true num_classes = Except.error (PyErr.keyError "xresnet152") ∧
    (∃ r, xresnet18 ρ false num_classes = Except.ok r) ∧
    (∃ r, xresnet34 ρ false num_classes = Except.ok r) ∧
    (∃ r, xresnet50 ρ false num_classes = Except.ok r) ∧
    (∃ r, xresnet101 ρ false num_classes = Except.ok r) ∧
    (∃ r, xresnet152 ρ false num_classes = Except.ok r) :=
  ⟨rfl, rfl, rfl, ⟨_, rfl⟩, ⟨_, rfl⟩, ⟨_, rfl⟩, ⟨_, rfl⟩, ⟨_, rfl⟩⟩

/-- C8: `xresnet(block, n_layers, name, pre)` always constructs
`XResNet(block, n_layers, **kwargs)`; with `pre=False` it performs no loading
and returns the freshly initialized model unchanged; with `pre=True` it loads
the state dict found at `model_urls[name]` into that model (a `KeyError` when
the name is absent). -/
theorem c8_xresnet_loads_iff_pre (ρ : Nat → ℚ) (block : BlockType) (n_layers : List Nat)
    (name : String) (num_classes : Nat) :
    xresnet ρ block n_layers name false num_classes =
      (match XResNet.init ρ block n_layers num_classes with
       | none => Except.error PyErr.indexError
       | some model => Except.ok (model, none)) ∧
    xresnet ρ block n_layers name true num_classes =
      (match XResNet.init ρ block n_layers num_classes with
       | none => Except.error PyErr.indexError
       | some model =>
         match model_urls.lookup name with
         | none => Except.error (PyErr.keyError name)
         | some url => Except.ok (model, some url)) := by
  constructor <;>
    (unfold xresnet; cases XResNet.init ρ block n_layers num_classes <;> rfl)

/-- C1: for every input `x`, `XResNet.forward` computes the composition, in
exactly this order: `conv1`, `conv2`, `conv3`, `maxpool`, `layer1`, `layer2`,
`layer3`, `layer4`, `avgpool`, flatten to `(batch, -1)`, `fc`; and the stem is
`conv_bn_relu(3, 32, stride=2)`, then `conv_bn_relu(32, 32)`, then
`conv(32, 64)`, then a 3x3 max-pool with stride 2 and padding 1. -/
theorem c1_forward_composition (block : BlockType) (layers : List Nat)
    (num_classes : Nat) (m : XResNet)
    (h : XResNet.construct block layers num_classes = some m) (x : Tensor) :
    XResNet.forward m x =
      Layer.forward m.fc
        (Tensor.flatten
          (Layer.forward m.avgpool
            (Layer.forward m.layer4
              (Layer.forward m.layer3
                (Layer.forward m.layer2
                  (Layer.forward m.layer1
                    (Layer.forward m.maxpool
                      (Layer.forward m.conv3
                        (Layer.forward m.conv2
                          (Layer.forward m.conv1 x)))))))))) ∧
    m.conv1 = conv_bn_relu 3 32 3 2 ∧
    m.conv2 = conv_bn_relu 32 32 3 1 ∧
    m.conv3 = conv 32 64 3 1 false ∧
    m.maxpool = Layer.MaxPool2d 3 2 1 := by
  rcases layers with _ | ⟨l0, _ | ⟨l1, _ | ⟨l2, _ | ⟨l3, rest⟩⟩⟩⟩ <;>
    simp only [XResNet.construct, Option.some.injEq, reduceCtorEq] at h
  subst h
  exact ⟨rfl, rfl, rfl, rfl, rfl⟩

/-- Witness for C1 at `BasicBlock, [2, 2, 2, 2], 1000` and the free input. -/
theorem c1_forward_composition_witness :
    XResNet.construct BlockType.basic [2, 2, 2, 2] 1000 = some model18 ∧
    (XResNet.forward model18 Tensor.input =
      Layer.forward model18.fc
        (Tensor.flatten
          (Layer.forward model18.avgpool
            (Layer.forward model18.layer4
              (Layer.forward model18.layer3
                (Layer.forward model18.layer2
                  (Layer.forward model18.layer1
                    (Layer.forward model18.maxpool
                      (Layer.forward model18.conv3
                        (Layer.forward model18.conv2
                          (Layer.forward model18.conv1 Tensor.input)))))))))) ∧
    model18.conv1 = conv_bn_relu 3 32 3 2 ∧
    model18.conv2 = conv_bn_relu 32 32 3 1 ∧
    model18.conv3 = conv 32 64 3 1 false ∧
    model18.maxpool = Layer.MaxPool2d 3 2 1) :=
  ⟨rfl, c1_forward_composition BlockType.basic [2, 2, 2, 2] 1000 model18 rfl Tensor.input⟩

/-- C2: for `blocks >= 1`, `XResNet._make_layer` returns a `Sequential` of
exactly `blocks` block instances: the first constructed with input channels
`self.ni`, width `nf`, the given stride and the (possibly `None`) downsample
module; every subsequent block constructed with input channels
`nf*block.expansion`, width `nf`, stride 1, and no downsample. -/
theorem c2_make_layer_blocks (block : BlockType) (ni nf blocks stride : Nat)
    (h : 1 ≤ blocks) :
    ∃ ls, (XResNet.make_layer block ni nf blocks stride).1 = Layer.Sequential ls ∧
      ls.length = blocks ∧
      ls = block.make ni nf stride (XResNet.downsample_for block ni nf stride) ::
        List.replicate (blocks - 1) (block.make (nf * block.expansion) nf 1 none) := by
  refine ⟨_, rfl, ?_, rfl⟩
  simp only [List.length_cons, List.length_replicate]
  omega

/-- Witness for C2 at `Bottleneck, ni=64, nf=64, blocks=3, stride=1`. -/
theorem c2_make_layer_blocks_witness :
    1 ≤ 3 ∧
    ∃ ls, (XResNet.make_layer BlockType.bottleneck 64 64 3 1).1 = Layer.Sequential ls ∧
      ls.length = 3 ∧
      ls = BlockType.bottleneck.make 64 64 1
          (XResNet.downsample_for BlockType.bottleneck 64 64 1) ::
        List.replicate 2 (BlockType.bottleneck.make (64 * BlockType.bottleneck.expansion) 64 1 none) :=
  ⟨by decide, c2_make_layer_blocks BlockType.bottleneck 64 64 3 1 (by decide)⟩

/-- The first block of a stage is residual-compatible: its conv path ends in
`nf * expansion` channels, which is also what its identity path carries. -/
theorem residual_ok_first (block : BlockType) (ni nf stride : Nat) :
    residual_ok (block.make ni nf stride (XResNet.downsample_for block ni nf stride)) = true := by
  cases block <;>
    rcases hds : XResNet.downsample_for _ ni nf stride with _ | d <;>
    rw [XResNet.downsample_for] at hds <;>
    split at hds
  case basic.none.isTrue => exact absurd hds (by simp)
  case basic.none.isFalse h =>
    push_neg at h
    simp [residual_ok, BlockType.make, BasicBlock.make, bn_relu_conv, conv_relu_bn_,
      conv, Layer.seqList, lastConvOut, firstConvOut, firstConvIn, h.2, BlockType.expansion]
  case basic.some.isTrue h =>
    injection hds with hd
    subst hd
    by_cases h2 : stride = 2 <;>
      simp [residual_ok, BlockType.make, BasicBlock.make, bn_relu_conv, conv_relu_bn_,
        conv, Layer.seqList, lastConvOut, firstConvOut, firstConvIn, h2, BlockType.expansion]
  case basic.some.isFalse => exact absurd hds (by simp)
  case bottleneck.none.isTrue => exact absurd hds (by simp)
  case bottleneck.none.isFalse h =>
    push_neg at h
    simp [residual_ok, BlockType.make, Bottleneck.make, bn_relu_conv, conv_relu_bn_,
      conv, Layer.seqList, lastConvOut, firstConvOut, firstConvIn, h.2, BlockType.expansion]
  case bottleneck.some.isTrue h =>
    injection hds with hd
    subst hd
    by_cases h2 : stride = 2 <;>
      simp [residual_ok, BlockType.make, Bottleneck.make, bn_relu_conv, conv_relu_bn_,
        conv, Layer.seqList, lastConvOut, firstConvOut, firstConvIn, h2, BlockType.expansion]
  case bottleneck.some.isFalse => exact absurd hds (by simp)

/-- Each later block of a stage is residual-compatible: built with input
channels `nf * expansion` and no downsample, its identity carries exactly the
conv path's output channels. -/
theorem residual_ok_rest (block : BlockType) (nf : Nat) :
    residual_ok (block.make (nf * block.expansion) nf 1 none) = true := by
  cases block <;>
    simp [BlockType.make, BasicBlock.make, Bottleneck.make, bn_relu_conv, conv_relu_bn_,
      conv, residual_ok, Layer.seqList, lastConvOut, firstConvOut, firstConvIn,
      BlockType.expansion]

/-- C6: channel-chaining invariant.  `_make_layer` always leaves
`self.ni = nf*block.expansion`; every residual block it builds has a conv path
whose output channel count equals its identity path's channel count; and in
the constructed model each stage's input channel count equals the previous
stage's output channel count (`64` into stage 1 from the stem, then
`64*e`, `128*e`, `256*e`), with the final `self.ni = 512*e`. -/
theorem c6_channel_chaining (block : BlockType) (ni nf blocks stride : Nat)
    (layers : List Nat) (num_classes : Nat) :
    (XResNet.make_layer block ni nf blocks stride).2 = nf * block.expansion ∧
    (XResNet.make_layer block ni nf blocks stride).1.seqList.all residual_ok = true ∧
    (XResNet.construct block layers num_classes).all
      (fun m => m.ni == 512 * block.expansion &&
        m.layer1.stageIn == some 64 &&
        m.layer2.stageIn == some (64 * block.expansion) &&
        m.layer3.stageIn == some (128 * block.expansion) &&
        m.layer4.stageIn == some (256 * block.expansion)) = true := by
  refine ⟨rfl, ?_, ?_⟩
  · simp only [XResNet.make_layer, Layer.seqList, List.all_cons, Bool.and_eq_true,
      List.all_eq_true]
    exact ⟨residual_ok_first block ni nf stride, fun l hl => by
      rw [List.eq_of_mem_replicate hl]; exact residual_ok_rest block nf⟩
  · rcases layers with _ | ⟨l0, _ | ⟨l1, _ | ⟨l2, _ | ⟨l3, rest⟩⟩⟩⟩ <;> cases block <;> rfl

/-- Setting a parameter to a constant never changes the architecture. -/
theorem arch_set_weight (v : ℚ) (l : Layer) :
    Layer.arch (Layer.set_weight v l) = Layer.arch l := by
  cases l <;> rfl

/-- Zeroing the head weight of a `Sequential` never changes the architecture. -/
theorem arch_zero_head (l : Layer) :
    Layer.arch (Layer.zero_head_weight l) = Layer.arch l := by
  cases l with
  | Sequential ls =>
    cases ls with
    | nil => rfl
    | cons h rest => simp [Layer.zero_head_weight, Layer.arch, Layer.arch_list, arch_set_weight]
  | _ => rfl

mutual
/-- Running `init_cnn` changes only parameter states, never the architecture. -/
theorem arch_init_cnn (ρ : Nat → ℚ) : (l : Layer) → (n : Nat) →
    Layer.arch (init_cnn ρ l n).1 = Layer.arch l
  | Layer.Conv2d _ _ _ _ _ _ _ _, _ => rfl
  | Layer.BatchNorm2d _ _ _, _ => rfl
  | Layer.BatchNorm1d _ _ _, _ => rfl
  | Layer.ReLU, _ => rfl
  | Layer.MaxPool2d _ _ _, _ => rfl
  | Layer.AvgPool2d _ _, _ => rfl
  | Layer.AdaptiveAvgPool2d _, _ => rfl
  | Layer.Linear _ _ _ _, _ => rfl
  | Layer.Sequential ls, n => by
    simp [init_cnn, Layer.arch, arch_init_cnn_list ρ ls n]
  | Layer.basicBlock c1 c2 ds s, n => by
    simp [init_cnn, Layer.arch, arch_init_cnn ρ c1 n, arch_init_cnn ρ c2 (init_cnn ρ c1 n).2,
      arch_init_cnn_opt ρ ds (init_cnn ρ c2 (init_cnn ρ c1 n).2).2]
  | Layer.bottleneckBlock c1 c2 c3 ds s, n => by
    simp [init_cnn, Layer.arch, arch_init_cnn ρ c1 n, arch_init_cnn ρ c2 (init_cnn ρ c1 n).2,
      arch_init_cnn ρ c3 (init_cnn ρ c2 (init_cnn ρ c1 n).2).2,
      arch_init_cnn_opt ρ ds (init_cnn ρ c3 (init_cnn ρ c2 (init_cnn ρ c1 n).2).2).2]

/-- Running `init_cnn` over a child list preserves each child's architecture. -/
theorem arch_init_cnn_list (ρ : Nat → ℚ) : (ls : List Layer) → (n : Nat) →
    Layer.arch_list (init_cnn_list ρ ls n).1 = Layer.arch_list ls
  | [], _ => rfl
  | l :: ls, n => by
    simp [init_cnn_list, Layer.arch_list, arch_init_cnn ρ l n,
      arch_init_cnn_list ρ ls (init_cnn ρ l n).2]

/-- Running `init_cnn` over an optional child preserves its architecture. -/
theorem arch_init_cnn_opt (ρ : Nat → ℚ) : (o : Option Layer) → (n : Nat) →
    Layer.arch_opt (init_cnn_opt ρ o n).1 = Layer.arch_opt o
  | none, _ => rfl
  | some l, n => by simp [init_cnn_opt, Layer.arch_opt, arch_init_cnn ρ l n]
end

mutual
/-- The post-`init_cnn` loop changes only parameter states, never the
architecture. -/
theorem arch_post_init (ρ : Nat → ℚ) : (l : Layer) → (n : Nat) →
    Layer.arch (post_init ρ l n).1 = Layer.arch l
  | Layer.Conv2d _ _ _ _ _ _ _ _, _ => rfl
  | Layer.BatchNorm2d _ _ _, _ => rfl
  | Layer.BatchNorm1d _ _ _, _ => rfl
  | Layer.ReLU, _ => rfl
  | Layer.MaxPool2d _ _ _, _ => rfl
  | Layer.AvgPool2d _ _, _ => rfl
  | Layer.AdaptiveAvgPool2d _, _ => rfl
  | Layer.Linear _ _ _ _, _ => rfl
  | Layer.Sequential ls, n => by
    simp [post_init, Layer.arch, arch_post_init_list ρ ls n]
  | Layer.basicBlock c1 c2 ds s, n => by
    simp [post_init, Layer.arch, arch_zero_head, arch_post_init ρ c1 n,
      arch_post_init ρ c2 (post_init ρ c1 n).2,
      arch_post_init_opt ρ ds (post_init ρ c2 (post_init ρ c1 n).2).2]
  | Layer.bottleneckBlock c1 c2 c3 ds s, n => by
    simp [post_init, Layer.arch, arch_zero_head, arch_post_init ρ c1 n,
      arch_post_init ρ c2 (post_init ρ c1 n).2,
      arch_post_init ρ c3 (post_init ρ c2 (post_init ρ c1 n).2).2,
      arch_post_init_opt ρ ds (post_init ρ c3 (post_init ρ c2 (post_init ρ c1 n).2).2).2]

/-- The post-`init_cnn` loop over a child list preserves architectures. -/
theorem arch_post_init_list (ρ : Nat → ℚ) : (ls : List Layer) → (n : Nat) →
    Layer.arch_list (post_init_list ρ ls n).1 = Layer.arch_list ls
  | [], _ => rfl
  | l :: ls, n => by
    simp [post_init_list, Layer.arch_list, arch_post_init ρ l n,
      arch_post_init_list ρ ls (post_init ρ l n).2]

/-- The post-`init_cnn` loop over an optional child preserves its
architecture. -/
theorem arch_post_init_opt (ρ : Nat → ℚ) : (o : Option Layer) → (n : Nat) →
    Layer.arch_opt (post_init_opt ρ o n).1 = Layer.arch_opt o
  | none, _ => rfl
  | some l, n => by simp [post_init_opt, Layer.arch_opt, arch_post_init ρ l n]
end

/-- Weight initialization never changes a model's architecture. -/
theorem arch_init_weights (ρ : Nat → ℚ) (m : XResNet) :
    XResNet.arch (XResNet.init_weights ρ m) = XResNet.arch m := by
  simp [XResNet.init_weights, XResNet.arch, arch_post_init, arch_init_cnn]

/-- C10: model construction is deterministic up to the random draws: for every
block class, layer-count list and `num_classes`, two runs of
`XResNet.__init__` with arbitrary (possibly different) external randomness
produce models with identical architecture — the same tree of layer types,
kernel sizes, strides, paddings and channel dimensions — so only the randomly
drawn weight values may differ. -/
theorem c10_deterministic_architecture (ρ1 ρ2 : Nat → ℚ) (block : BlockType)
    (layers : List Nat) (num_classes : Nat) :
    (XResNet.init ρ1 block layers num_classes).map XResNet.arch =
      (XResNet.init ρ2 block layers num_classes).map XResNet.arch := by
  unfold XResNet.init
  cases XResNet.construct block layers num_classes with
  | none => rfl
  | some m => simp [arch_init_weights]

/-- Every residual block whose `downsample` processes to a well-initialized
optional module is itself well-initialized after `init_cnn` and the zeroing
loop: conv-path batch norms get weight `1`/bias `0`, convolutions get Kaiming
weights, and the head of the final conv path gets its weight zeroed. -/
theorem goodInit_block (ρ : Nat → ℚ) (block : BlockType) (ni nf stride : Nat)
    (ds : Option Layer)
    (hds : ∀ a b : Nat, goodInit_opt ((post_init_opt ρ (init_cnn_opt ρ ds a).1 b).1) = true)
    (n m : Nat) :
    goodInit ((post_init ρ (init_cnn ρ (block.make ni nf stride ds) n).1 m).1) = true := by
  cases block <;>
    simp [BlockType.make, BasicBlock.make, Bottleneck.make, bn_relu_conv, conv_relu_bn_, conv,
      init_cnn, init_cnn_list, init_cnn_opt, post_init, post_init_list, post_init_opt,
      goodInit, goodInit_list, goodInit_opt, goodZeroedHead, Layer.zero_head_weight,
      Layer.set_weight, WInit.isKaiming, hds]

/-- The later blocks of a stage (no downsample) are well-initialized. -/
theorem goodInit_block_none (ρ : Nat → ℚ) (block : BlockType) (ni2 nf n m : Nat) :
    goodInit ((post_init ρ (init_cnn ρ (block.make ni2 nf 1 none) n).1 m).1) = true :=
  goodInit_block ρ block ni2 nf 1 none (fun _ _ => rfl) n m

/-- The replicated tail of a stage is well-initialized, whatever the counters. -/
theorem goodInit_stage_list (ρ : Nat → ℚ) (block : BlockType) (nf : Nat) :
    ∀ (k n m : Nat),
      goodInit_list ((post_init_list ρ (init_cnn_list ρ
        (List.replicate k (block.make (nf * block.expansion) nf 1 none)) n).1 m).1) = true
  | 0, _, _ => rfl
  | k + 1, n, m => by
    simp only [List.replicate_succ, init_cnn_list, post_init_list, goodInit_list,
      Bool.and_eq_true]
    exact ⟨goodInit_block_none ρ block (nf * block.expansion) nf n m,
      goodInit_stage_list ρ block nf k _ _⟩

/-- A whole stage built by `_make_layer` is well-initialized. -/
theorem goodInit_stage (ρ : Nat → ℚ) (block : BlockType) (ni nf blocks stride n m : Nat) :
    goodInit ((post_init ρ
      (init_cnn ρ (XResNet.make_layer block ni nf blocks stride).1 n).1 m).1) = true := by
  rw [XResNet.make_layer]
  simp only [init_cnn, init_cnn_list, post_init, post_init_list, goodInit, goodInit_list,
    Bool.and_eq_true]
  refine ⟨goodInit_block ρ block ni nf stride _ (fun a b => ?_) n _,
    goodInit_stage_list ρ block nf _ _ _⟩
  rw [XResNet.downsample_for]
  split
  · split <;> rfl
  · rfl

/-- C4: after `XResNet.__init__` finishes, every `Conv2d` weight is
Kaiming-normal initialized (and its bias, when present, set to `0`); every
`BatchNorm2d` has weight `1` and bias `0`, except the module at index `0` of
the final conv path of each residual block (`conv2` for `BasicBlock`, `conv3`
for `Bottleneck`), whose weight is set to `0` — and since `bn_relu_conv`
places the `BatchNorm2d` at index `0`, that zeroed weight is a batch-norm
weight, not a convolution weight; every `Linear` weight is drawn from a
normal distribution with mean `0` and standard deviation `0.01`. -/
theorem c4_weight_initialization (ρ : Nat → ℚ) (block : BlockType) (layers : List Nat)
    (num_classes : Nat) :
    Option.all XResNet.goodInitAll (XResNet.init ρ block layers num_classes) = true := by
  rcases layers with _ | ⟨l0, _ | ⟨l1, _ | ⟨l2, _ | ⟨l3, rest⟩⟩⟩⟩
  · rfl
  · rfl
  · rfl
  · rfl
  · simp only [XResNet.init, XResNet.construct, Option.map_some', Option.all,
      XResNet.init_weights, XResNet.goodInitAll, Bool.and_eq_true]
    refine ⟨⟨⟨⟨⟨⟨⟨⟨⟨?_, ?_⟩, ?_⟩, ?_⟩, ?_⟩, ?_⟩, ?_⟩, ?_⟩, ?_⟩, ?_⟩
    · exact rfl
    · exact rfl
    · exact rfl
    · exact rfl
    · exact goodInit_stage ρ block 64 64 l0 1 _ _
    · exact goodInit_stage ρ block _ 128 l1 2 _ _
    · exact goodInit_stage ρ block _ 256 l2 2 _ _
    · exact goodInit_stage ρ block _ 512 l3 2 _ _
    · exact rfl
    · exact rfl
